import Mathlib

/-!
Verification of the provisioning-pipeline and device-utils code of the
gcp-compute-persistent-disk-csi-driver repository against its design document.

Part 1 embeds `pkg/mount-manager/device-utils.go` (pure string and
filesystem-oracle computations): `GetDiskByIdPaths`, `VerifyDevicePath`,
`pathExists`, together with a model of Go's `path.Clean`/`path.Join` which
`GetDiskByIdPaths` uses.

Part 2 embeds the pipeline in `handle` of the k8s-integration main program:
the four concurrent task slots, the dependency channel between the
cluster-build task and the cluster-bring-up task, the error-channel
aggregation loop, the sequential install/test phase, and the deferred
teardown actions.
-/

/- ### Part 1: device-utils -/

/-- Result of one `os.Stat` call as observed by `pathExists`
(device-utils.go lines 197-207): the path exists, it does not exist
(`os.IsNotExist`), or the stat itself failed with some other error. -/
inductive StatRes
  | found
  | missing
  | statError (e : String)
  deriving DecidableEq, Repr

/-- Embeds `pathExists` (device-utils.go lines 197-207).  The filesystem is
abstracted as an oracle `stat : String → StatRes`.  Go returns
`(true, nil)`, `(false, nil)` or `(false, err)`; we model the pair as
`Except String Bool`. -/
def pathExists (stat : String → StatRes) (p : String) : Except String Bool :=
  match stat p with
  | .found => .ok true
  | .missing => .ok false
  | .statError e => .error e

/-- Results of the `filepath.Glob` and `udevadmChangeToNewDrives` calls made at
the top of `VerifyDevicePath` (lines 97-107).  Both failures are only logged
(`klog.Errorf`) and never affect the returned value. -/
structure UdevEnv where
  globErr : Option String
  udevadmErr : Option String
  deriving Repr

/-- The path-scanning loop of `VerifyDevicePath` (device-utils.go lines
109-117): return the error-wrapped stat failure, else the first existing
path, else `""` with no error. -/
def verifyDevicePathLoop (stat : String → StatRes) : List String → Except String String
  | [] => .ok ""
  | p :: rest =>
    match pathExists stat p with
    | .error e => .error ("Error checking if path exists: " ++ e)
    | .ok true => .ok p
    | .ok false => verifyDevicePathLoop stat rest

/-- Embeds `VerifyDevicePath` (device-utils.go lines 96-118).  The glob and
udevadm steps (`env`) are performed first but their errors are logged and
ignored, so the returned value is that of the scanning loop alone. -/
def VerifyDevicePath (_env : UdevEnv) (stat : String → StatRes)
    (devicePaths : List String) : Except String String :=
  verifyDevicePathLoop stat devicePaths

/-- Prepend a character to the first chunk of a split, starting a chunk if
none exists.  Helper for `splitSlash`. -/
def consHead (c : Char) : List (List Char) → List (List Char)
  | [] => [[c]]
  | h :: t => (c :: h) :: t

/-- Split a character list on `'/'`, keeping empty chunks, as Go's
`path.Clean` lexer does. -/
def splitSlash : List Char → List (List Char)
  | [] => [[]]
  | c :: rest => if c = '/' then [] :: splitSlash rest else consHead c (splitSlash rest)

/-- The element processing of Go's `path.Clean` on a rooted path: drop empty
and `"."` components, let `".."` pop the previous component (or vanish at
the root), keep everything else in order. -/
def cleanStack (comps : List (List Char)) : List (List Char) :=
  comps.foldl
    (fun st comp =>
      if comp = [] then st
      else if comp = ['.'] then st
      else if comp = ['.', '.'] then st.dropLast
      else st ++ [comp]) []

/-- Go's `path.Clean` restricted to rooted paths (every path cleaned by
`GetDiskByIdPaths` starts with `"/dev/disk/by-id/"`, so is rooted): split on
slashes, process `"."`/`".."`/empty components, and reassemble the surviving
components each preceded by a slash (`"/"` when none survive). -/
def goCleanRooted (s : String) : String :=
  match cleanStack (splitSlash s.data) with
  | [] => "/"
  | comps => String.mk (comps.foldl (fun acc comp => acc ++ '/' :: comp) [])

/-- Go's `path.Join` on two nonempty elements, the first rooted: concatenate
with a slash separator and `Clean` the result. -/
def goJoin2 (a b : String) : String :=
  goCleanRooted (a ++ "/" ++ b)

/-- Constant `diskByIdPath` (device-utils.go line 31). -/
def diskByIdPath : String := "/dev/disk/by-id/"

/-- Constant `diskGooglePrefix` (device-utils.go line 32). -/
def diskGooglePre : String := "google-"

/-- Constant `diskScsiGooglePrefix` (device-utils.go line 33). -/
def diskScsiGooglePre : String := "scsi-0Google_PersistentDisk_"

/-- Constant `diskPartitionSuffix` (device-utils.go line 34). -/
def diskPartitionSuffix : String := "-part"

/-- Embeds `GetDiskByIdPaths` (device-utils.go lines 80-93): two
`path.Join`ed by-id paths, each suffixed with `"-part" ++ partition` when
`partition` is nonempty. -/
def GetDiskByIdPaths (deviceName : String) (part : String) : List String :=
  let devicePaths := [goJoin2 diskByIdPath (diskGooglePre ++ deviceName),
                      goJoin2 diskByIdPath (diskScsiGooglePre ++ deviceName)]
  if part ≠ "" then
    devicePaths.map (fun p => p ++ diskPartitionSuffix ++ part)
  else
    devicePaths

/- ### Part 2: the provisioning pipeline (`handle` in the k8s-integration main) -/

/-- The flag values consumed by `handle` (main.go lines 30-57).  String flags
are modelled as the strings themselves; "set" means nonempty, exactly as the
`len(*flag) != 0` tests in the source. -/
structure Config where
  teardownCluster : Bool
  teardownDriver : Bool
  bringupCluster : Bool
  kubeVersion : String
  testVersion : String
  kubeFeatureGates : String
  localK8sDir : String
  deploymentStrat : String
  gkeClusterVer : String
  storageClassFile : String
  migrationTest : Bool
  doDriverBuild : Bool
  deriving DecidableEq, Repr

/-- The `ensureVariable`/`ensureFlag` checks of `main` (lines 81-110) on the
fields modelled in `Config`; a configuration passing them reaches `handle`. -/
def validConfig (c : Config) : Bool :=
  (if c.migrationTest then c.storageClassFile == "" else c.storageClassFile != "") &&
  (c.bringupCluster || c.kubeFeatureGates == "") &&
  (if c.bringupCluster || c.teardownCluster
    then c.deploymentStrat != "" else c.deploymentStrat == "") &&
  (c.deploymentStrat != "gke" ||
    (!c.migrationTest && c.kubeVersion == "" && c.gkeClusterVer != "" &&
     c.kubeFeatureGates == "" && (c.localK8sDir != "" || c.testVersion != ""))) &&
  (c.localK8sDir == "" || (c.kubeVersion == "" && c.testVersion == ""))

/-- Success/failure of each external operation invoked by the pipeline
(`none` = the call returned nil, `some e` = it returned error `e`), plus the
result of the `os.Stat` probe for the bundled kubectl (line 249). -/
structure Ops where
  downloadK8s : Option String
  buildK8s : Option String
  downloadTest : Option String
  buildTest : Option String
  pushImage : Option String
  kubectlShExists : Bool
  setenvKubectl : Option String
  setenvFeatureGates : Option String
  clusterUpGCE : Option String
  clusterUpGKE : Option String
  installDriver : Option String
  runCSITests : Option String
  runMigrationTests : Option String
  deleteImage : Option String
  clusterDown : Option String
  deleteDriver : Option String
  deriving Repr

/-- External calls made on the main control path or in teardown, in the
order they are performed. -/
inductive Effect
  | statKubectl
  | setenvKubectl
  | setenvFeatureGates
  | clusterUpGCE
  | clusterUpGKE
  | installDriver
  | runCSITests
  | runMigrationTests
  | deleteImage
  | clusterDown
  | deleteDriver
  deriving DecidableEq, Repr

/-- Events of the cluster-build slot: sending an Outcome on `errChan` and
writing the boolean on `k8sDependencyChan`. -/
inductive Ev
  | outcome (o : Option String)
  | gateWrite (b : Bool)
  deriving DecidableEq, Repr

/-- The cluster-build slot (main.go lines 175-198) as the ordered list of its
channel events.  When `kubeVersion` is set the goroutine of lines 178-193
runs: on a download or build failure it sends the wrapped error on `errChan`
and then writes `false` to the gate; on success it writes `true` to the gate
and then sends nil.  When `kubeVersion` is unset, lines 195-197 run
synchronously in `handle`: nil is sent on `errChan` and then `true` is
written to the gate, before the bring-up goroutine is even launched. -/
def slot0Trace (c : Config) (ops : Ops) : List Ev :=
  if c.kubeVersion ≠ "" then
    match ops.downloadK8s with
    | some e => [.outcome (some ("failed to download Kubernetes source: " ++ e)),
                 .gateWrite false]
    | none =>
      match ops.buildK8s with
      | some e => [.outcome (some ("failed to build Kubernetes: " ++ e)),
                   .gateWrite false]
      | none => [.gateWrite true, .outcome none]
  else
    [.outcome none, .gateWrite true]

/-- The Outcomes contained in an event trace, in order. -/
def traceOutcomes (t : List Ev) : List (Option String) :=
  t.filterMap fun e => match e with | .outcome o => some o | .gateWrite _ => none

/-- The gate writes contained in an event trace, in order. -/
def traceGateWrites (t : List Ev) : List Bool :=
  t.filterMap fun e => match e with | .gateWrite b => some b | .outcome _ => none

/-- The Outcome the cluster-build slot sends on `errChan`. -/
def slot0Emit (c : Config) (ops : Ops) : Option String :=
  (traceOutcomes (slot0Trace c ops)).head?.getD none

/-- The boolean carried by `k8sDependencyChan`: the single value the
cluster-build slot writes to the gate. -/
def gateValue (c : Config) (ops : Ops) : Bool :=
  (traceGateWrites (slot0Trace c ops)).head?.getD false

/-- The test-build slot (main.go lines 200-220): runs only when
`testVersion` is set and differs from `kubeVersion`, otherwise sends an
immediate nil. -/
def slot1Emit (c : Config) (ops : Ops) : Option String :=
  if c.testVersion ≠ "" ∧ c.testVersion ≠ c.kubeVersion then
    match ops.downloadTest with
    | some e => some ("failed to download Kubernetes source: " ++ e)
    | none =>
      match ops.buildTest with
      | some e => some ("failed to build Kubernetes: " ++ e)
      | none => none
  else none

/-- The image-push slot (main.go lines 222-237): sends the raw `pushImage`
result when `doDriverBuild` is set, an immediate nil otherwise. -/
def slot2Emit (c : Config) (ops : Ops) : Option String :=
  if c.doDriverBuild then ops.pushImage else none

/-- Continuation of the bring-up goroutine's gce case after the kubectl
probe (main.go lines 261-274): optionally set the feature-gates environment
variable, then run `clusterUpGCE`. -/
def slot3GceFeatureGates (c : Config) (ops : Ops) (effs : List Effect) :
    List (Option String) × List Effect :=
  if c.kubeFeatureGates ≠ "" then
    match ops.setenvFeatureGates with
    | some e => ([some ("failed to set kubernetes feature gates: " ++ e)],
                 effs ++ [.setenvFeatureGates])
    | none =>
      match ops.clusterUpGCE with
      | some e => ([some ("failed to cluster up: " ++ e)],
                   effs ++ [.setenvFeatureGates, .clusterUpGCE])
      | none => ([none], effs ++ [.setenvFeatureGates, .clusterUpGCE])
  else
    match ops.clusterUpGCE with
    | some e => ([some ("failed to cluster up: " ++ e)], effs ++ [.clusterUpGCE])
    | none => ([none], effs ++ [.clusterUpGCE])

/-- The body of the bring-up goroutine once the gate yielded true (main.go
lines 246-284): dispatch on the deployment strategy.  Note that the
`default` branch of the switch sends the unrecognized-strategy error and
then falls through to the `errChan <- nil` after the switch, so it emits two
Outcomes. -/
def slot3Run (c : Config) (ops : Ops) : List (Option String) × List Effect :=
  if c.deploymentStrat = "gce" then
    if ops.kubectlShExists then
      match ops.setenvKubectl with
      | some e => ([some ("failed to set cluster specific kubectl: " ++ e)],
                   [.statKubectl, .setenvKubectl])
      | none => slot3GceFeatureGates c ops [.statKubectl, .setenvKubectl]
    else
      slot3GceFeatureGates c ops [.statKubectl]
  else if c.deploymentStrat = "gke" then
    match ops.clusterUpGKE with
    | some e => ([some ("failed to cluster up: " ++ e)], [.clusterUpGKE])
    | none => ([none], [.clusterUpGKE])
  else
    ([some ("deployment-strategy must be set to 'gce' or 'gke', but is: "
        ++ c.deploymentStrat), none], [])

/-- The cluster-bring-up slot (main.go lines 239-288): when `bringupCluster`
is unset an immediate nil is sent with no work; otherwise the goroutine first
reads the gate and, on `false`, sends nil and returns without any side
effect; on `true` it proceeds to `slot3Run`. -/
def slot3 (c : Config) (ops : Ops) (gate : Bool) :
    List (Option String) × List Effect :=
  if c.bringupCluster then
    if gate then slot3Run c ops else ([none], [])
  else ([none], [])

/-- The multiset (in slot declaration order) of all Outcomes sent on
`errChan` during one run. -/
def allEmissions (c : Config) (ops : Ops) : List (Option String) :=
  [slot0Emit c ops, slot1Emit c ops, slot2Emit c ops]
    ++ (slot3 c ops (gateValue c ops)).1

/-- The aggregation loop of `handle` (main.go lines 311-318) applied to the
Outcomes in the order they are received: `firstErr` keeps the first
non-nil value. -/
def firstErr (received : List (Option String)) : Option String :=
  received.foldl
    (fun acc err => if err.isSome then (if acc = none then err else acc) else acc)
    none

/-- `handle` reads exactly 4 values from `errChan` (`for i := 0; i < 4`),
so the aggregate is `firstErr` of the first four received Outcomes. -/
def aggregate (arrival : List (Option String)) : Option String :=
  firstErr (arrival.take 4)

/-- The deferred teardown actions that actually execute when `handle`
returns, in unwind (reverse-registration) order.  Registration order in the
source: the image-deletion defer at lines 227-234 (registered whenever
`doDriverBuild` is set; its body re-checks `teardownCluster` at execution
time), the cluster-down defer at lines 291-308 (registered whenever
`teardownCluster` is set), and the driver-deletion defer at lines 325-332
(registered iff the sequential phase was reached and `teardownDriver` is
set, which `driverDefer` records). -/
def teardownUnwind (c : Config) (driverDefer : Bool) : List Effect :=
  (if driverDefer then [Effect.deleteDriver] else [])
    ++ (if c.teardownCluster then [Effect.clusterDown] else [])
    ++ (if c.doDriverBuild then
          (if c.teardownCluster then [Effect.deleteImage] else [])
        else [])

/-- The control path of `handle` from the aggregation loop to its return
(main.go lines 310-351), as the pair of the returned error and the external
calls made on the main path followed by the executed teardown actions.
On a non-nil aggregate, `handle` returns it at line 320 before installing
the driver.  Otherwise `installDriver` runs; the driver-deletion defer is
registered (under `teardownDriver`) before the install error is examined;
then exactly one of `runCSITests` / `runMigrationTests` runs, or the
missing-test-mode error is returned. -/
def handlePipeline (c : Config) (ops : Ops) (arrival : List (Option String)) :
    Option String × List Effect :=
  match aggregate arrival with
  | some e => (some e, teardownUnwind c false)
  | none =>
    match ops.installDriver with
    | some e => (some ("failed to install CSI Driver: " ++ e),
                 [Effect.installDriver] ++ teardownUnwind c c.teardownDriver)
    | none =>
      if c.storageClassFile ≠ "" then
        match ops.runCSITests with
        | some e => (some ("failed to run tests: " ++ e),
                     [Effect.installDriver, Effect.runCSITests]
                       ++ teardownUnwind c c.teardownDriver)
        | none => (none, [Effect.installDriver, Effect.runCSITests]
                     ++ teardownUnwind c c.teardownDriver)
      else if c.migrationTest then
        match ops.runMigrationTests with
        | some e => (some ("failed to run tests: " ++ e),
                     [Effect.installDriver, Effect.runMigrationTests]
                       ++ teardownUnwind c c.teardownDriver)
        | none => (none, [Effect.installDriver, Effect.runMigrationTests]
                     ++ teardownUnwind c c.teardownDriver)
      else
        (some "Did not run either CSI or Migration test",
         [Effect.installDriver] ++ teardownUnwind c c.teardownDriver)

/-- Whether an effect is one of the three teardown actions. -/
def isTeardownEffect : Effect → Bool
  | .deleteImage => true
  | .clusterDown => true
  | .deleteDriver => true
  | _ => false

/-- The teardown actions executed during one run, in execution order. -/
def teardownActionsExecuted (c : Config) (ops : Ops)
    (arrival : List (Option String)) : List Effect :=
  (handlePipeline c ops arrival).2.filter isTeardownEffect

/- ### Helper lemmas about the aggregation loop -/

lemma firstErr_fold_some (l : List (Option String)) (e : String) :
    l.foldl
      (fun acc err => if err.isSome then (if acc = none then err else acc) else acc)
      (some e) = some e := by
  induction l with
  | nil => rfl
  | cons o l ih => cases o <;> simpa using ih

lemma firstErr_cons (o : Option String) (l : List (Option String)) :
    firstErr (o :: l) = match o with | some e => some e | none => firstErr l := by
  cases o with
  | none => simp [firstErr]
  | some e => simp [firstErr, firstErr_fold_some]

lemma firstErr_eq_none_iff (l : List (Option String)) :
    firstErr l = none ↔ ∀ o ∈ l, o = none := by
  induction l with
  | nil => simp [firstErr]
  | cons o l ih =>
    cases o with
    | none => simp [firstErr_cons, ih]
    | some e => simp [firstErr_cons]

lemma firstErr_mem (l : List (Option String)) (e : String)
    (h : firstErr l = some e) : some e ∈ l := by
  induction l with
  | nil => simp [firstErr] at h
  | cons o l ih =>
    cases o with
    | none =>
      rw [firstErr_cons] at h
      exact List.mem_cons_of_mem _ (ih h)
    | some a =>
      rw [firstErr_cons] at h
      exact h ▸ List.mem_cons_self _ _

lemma firstErr_of_filter_singleton (l : List (Option String)) (e : String)
    (h : l.filter (fun o => o.isSome) = [some e]) : firstErr l = some e := by
  induction l with
  | nil => simp at h
  | cons o l ih =>
    cases o with
    | none =>
      rw [List.filter_cons_of_neg (by simp)] at h
      rw [firstErr_cons]
      exact ih h
    | some a =>
      rw [List.filter_cons_of_pos (by simp)] at h
      obtain ⟨h1, _⟩ := List.cons_eq_cons.mp h
      rw [firstErr_cons, h1]

/- ### Concrete runs used by the counterexamples -/

/-- Operation results where every external call succeeds. -/
def opsAllOk : Ops :=
  { downloadK8s := none, buildK8s := none, downloadTest := none, buildTest := none,
    pushImage := none, kubectlShExists := false, setenvKubectl := none,
    setenvFeatureGates := none, clusterUpGCE := none, clusterUpGKE := none,
    installDriver := none, runCSITests := none, runMigrationTests := none,
    deleteImage := none, clusterDown := none, deleteDriver := none }

/-- A validated configuration that builds Kubernetes (`kube-version` set) and
builds/pushes the driver image, with no cluster bring-up or teardown. -/
def cfgC1 : Config :=
  { teardownCluster := false, teardownDriver := false, bringupCluster := false,
    kubeVersion := "v1", testVersion := "", kubeFeatureGates := "",
    localK8sDir := "", deploymentStrat := "", gkeClusterVer := "",
    storageClassFile := "sc.yaml", migrationTest := false, doDriverBuild := true }

/-- A run of `cfgC1` where both the Kubernetes download (slot 0) and the
image push (slot 2) fail. -/
def opsC1 : Ops := { opsAllOk with downloadK8s := some "dl", pushImage := some "push" }

/-- An arrival order for `cfgC1`/`opsC1` in which the image-push failure is
received before the cluster-build failure.  The two failing slots run in
concurrent goroutines, so this completion order is realizable. -/
def arrC1 : List (Option String) :=
  [none, some "push", none, some "failed to download Kubernetes source: dl"]

/-- C1 counterexample: the aggregate of `handle` is the first failure in
arrival order on `errChan`, not the failure at the lowest slot index.  Here
the failing slots are slot 0 (cluster build) and slot 2 (image push); the
arrival order `arrC1` is a permutation of the slot outcomes, yet the
aggregate is the slot-2 failure, while the lowest-indexed failing slot is
slot 0. -/
theorem C1_counterexample :
    validConfig cfgC1 = true ∧
    arrC1.Perm (allEmissions cfgC1 opsC1) ∧
    aggregate arrC1 = some "push" ∧
    firstErr (allEmissions cfgC1 opsC1) =
      some "failed to download Kubernetes source: dl" ∧
    aggregate arrC1 ≠ firstErr (allEmissions cfgC1 opsC1) := by
  decide

/-- C1 amended: the aggregate is the first failure in arrival order; it is
success exactly when all four slot Outcomes are success, any reported failure
is one of the slots' failing Outcomes, and when exactly one slot fails the
aggregate equals that failure independent of arrival order. -/
theorem C1_aggregate_amended (slots arrival : List (Option String))
    (hlen : slots.length = 4) (hperm : arrival.Perm slots) :
    (aggregate arrival = none ↔ ∀ o ∈ slots, o = none) ∧
    (∀ e, aggregate arrival = some e → some e ∈ slots) ∧
    (∀ e, slots.filter (fun o => o.isSome) = [some e] → aggregate arrival = some e) := by
  have hlen' : arrival.length = 4 := hperm.length_eq.trans hlen
  have htake : arrival.take 4 = arrival := List.take_of_length_le (le_of_eq hlen')
  unfold aggregate
  rw [htake]
  refine ⟨?_, ?_, ?_⟩
  · rw [firstErr_eq_none_iff]
    constructor
    · intro h o ho
      exact h o (hperm.mem_iff.mpr ho)
    · intro h o ho
      exact h o (hperm.mem_iff.mp ho)
  · intro e he
    exact hperm.mem_iff.mp (firstErr_mem _ _ he)
  · intro e hf
    apply firstErr_of_filter_singleton
    have hpf : List.Perm (arrival.filter (fun o => o.isSome))
        (slots.filter (fun o => o.isSome)) := hperm.filter _
    rw [hf] at hpf
    exact List.perm_singleton.mp hpf

/-- Witness for `C1_aggregate_amended` at a concrete single-failure run. -/
theorem C1_aggregate_amended_witness :
    aggregate [none, some "x", none, none] = some "x" :=
  (C1_aggregate_amended [some "x", none, none, none] [none, some "x", none, none]
    (by decide) (by decide)).2.2 "x" (by decide)

/- ### Helper lemmas about the teardown unwind -/

lemma filter_teardownUnwind (c : Config) (b : Bool) :
    (teardownUnwind c b).filter isTeardownEffect = teardownUnwind c b := by
  cases b <;> cases hc : c.teardownCluster <;> cases hd : c.doDriverBuild <;>
    simp [teardownUnwind, hc, hd, isTeardownEffect]

lemma teardownUnwind_length (c : Config) (b : Bool) :
    (teardownUnwind c b).length =
      (if c.doDriverBuild && c.teardownCluster then 1 else 0) +
      (if c.teardownCluster then 1 else 0) +
      (if b then 1 else 0) := by
  cases b <;> cases hc : c.teardownCluster <;> cases hd : c.doDriverBuild <;>
    simp [teardownUnwind, hc, hd]

lemma not_mem_teardownUnwind_forward (c : Config) (b : Bool) :
    Effect.installDriver ∉ teardownUnwind c b ∧
    Effect.runCSITests ∉ teardownUnwind c b ∧
    Effect.runMigrationTests ∉ teardownUnwind c b := by
  cases b <;> cases hc : c.teardownCluster <;> cases hd : c.doDriverBuild <;>
    simp [teardownUnwind, hc, hd]

lemma handlePipeline_snd_filter (c : Config) (ops : Ops) (arrival : List (Option String)) :
    (handlePipeline c ops arrival).2.filter isTeardownEffect =
      teardownUnwind c ((aggregate arrival).isNone && c.teardownDriver) := by
  unfold handlePipeline
  cases hagg : aggregate arrival with
  | some e => simp [filter_teardownUnwind]
  | none =>
    cases hins : ops.installDriver with
    | some e => simp [List.filter_append, isTeardownEffect, filter_teardownUnwind]
    | none =>
      by_cases hs : c.storageClassFile ≠ ""
      · cases hcsi : ops.runCSITests <;>
          simp [hs, hcsi, List.filter_append, isTeardownEffect, filter_teardownUnwind]
      · by_cases hm : c.migrationTest
        · cases hmig : ops.runMigrationTests <;>
            simp [hs, hm, hmig, List.filter_append, isTeardownEffect, filter_teardownUnwind]
        · simp [hs, hm, List.filter_append, isTeardownEffect, filter_teardownUnwind]

lemma handlePipeline_of_aggregate_some (c : Config) (ops : Ops)
    (arrival : List (Option String)) (e : String) (h : aggregate arrival = some e) :
    handlePipeline c ops arrival = (some e, teardownUnwind c false) := by
  unfold handlePipeline
  rw [h]

/- ### C2: teardown registration vs. acquisition success -/

/-- Modelled from the spec: whether the cluster was actually acquired —
the bring-up slot ran its cluster-up operation and that operation
succeeded. -/
def clusterAcquired (c : Config) (ops : Ops) : Bool :=
  c.bringupCluster && gateValue c ops &&
    ((decide (Effect.clusterUpGCE ∈ (slot3 c ops (gateValue c ops)).2) &&
        (ops.clusterUpGCE == none)) ||
     (decide (Effect.clusterUpGKE ∈ (slot3 c ops (gateValue c ops)).2) &&
        (ops.clusterUpGKE == none)))

/-- Modelled from the spec: "the number of TeardownEntry actions executed
equals the number of successful conditional acquisitions whose corresponding
teardown flag was enabled".  The acquisitions and their flags (spec section
4.5 step 3 and 5): image push (flag teardown-cluster), cluster bring-up
(flag teardown-cluster), driver install (flag teardown-driver;
`reachedInstall` records whether the sequential phase was reached at all). -/
def specTeardownCount (c : Config) (ops : Ops) (reachedInstall : Bool) : Nat :=
  (if c.doDriverBuild && (ops.pushImage == none) && c.teardownCluster then 1 else 0) +
  (if clusterAcquired c ops && c.teardownCluster then 1 else 0) +
  (if reachedInstall && (ops.installDriver == none) && c.teardownDriver then 1 else 0)

/-- A validated configuration that builds/pushes the driver image and brings
up a gce cluster, with cluster teardown enabled. -/
def cfgC2 : Config :=
  { teardownCluster := true, teardownDriver := false, bringupCluster := true,
    kubeVersion := "", testVersion := "", kubeFeatureGates := "",
    localK8sDir := "", deploymentStrat := "gce", gkeClusterVer := "",
    storageClassFile := "sc.yaml", migrationTest := false, doDriverBuild := true }

/-- A run of `cfgC2` where the image push fails and everything else
succeeds (in particular the cluster comes up). -/
def opsC2 : Ops := { opsAllOk with pushImage := some "push failed" }

/-- The arrival order for the `cfgC2`/`opsC2` run (slot order; any order
gives the same aggregate here since only one slot fails). -/
def arrC2 : List (Option String) := allEmissions cfgC2 opsC2

/-- C2 counterexample: in the `cfgC2`/`opsC2` run the image push failed and
the cluster bring-up succeeded, so exactly one conditional acquisition with
an enabled teardown flag succeeded; yet two teardown actions execute —
`deleteImage` runs although the push failed, because its defer is registered
at launch (main.go line 227), not after the push is observed to succeed. -/
theorem C2_counterexample :
    validConfig cfgC2 = true ∧
    opsC2.pushImage = some "push failed" ∧
    clusterAcquired cfgC2 opsC2 = true ∧
    teardownActionsExecuted cfgC2 opsC2 arrC2 = [Effect.clusterDown, Effect.deleteImage] ∧
    specTeardownCount cfgC2 opsC2 false = 1 ∧
    (teardownActionsExecuted cfgC2 opsC2 arrC2).length ≠ specTeardownCount cfgC2 opsC2 false := by
  decide

/-- C2 amended: the executed teardown actions are exactly determined by the
flags and by whether the sequential phase was reached — `deleteDriver` iff
the aggregate succeeded and teardown-driver is set, `clusterDown` iff
teardown-cluster is set, `deleteImage` iff do-driver-build and
teardown-cluster are both set — independent of whether the push, bring-up or
install actually succeeded. -/
theorem C2_teardown_amended (c : Config) (ops : Ops) (arrival : List (Option String)) :
    teardownActionsExecuted c ops arrival =
      teardownUnwind c ((aggregate arrival).isNone && c.teardownDriver) ∧
    (teardownActionsExecuted c ops arrival).length =
      (if c.doDriverBuild && c.teardownCluster then 1 else 0) +
      (if c.teardownCluster then 1 else 0) +
      (if (aggregate arrival).isNone && c.teardownDriver then 1 else 0) := by
  refine ⟨handlePipeline_snd_filter c ops arrival, ?_⟩
  rw [teardownActionsExecuted, handlePipeline_snd_filter, teardownUnwind_length]

/- ### C3: driver-deletion registration on install failure -/

/-- A validated configuration with every concurrent step skipped and
teardown-driver enabled. -/
def cfgC3 : Config :=
  { teardownCluster := false, teardownDriver := true, bringupCluster := false,
    kubeVersion := "", testVersion := "", kubeFeatureGates := "",
    localK8sDir := "", deploymentStrat := "", gkeClusterVer := "",
    storageClassFile := "sc.yaml", migrationTest := false, doDriverBuild := false }

/-- A run of `cfgC3` where the driver install fails. -/
def opsC3 : Ops := { opsAllOk with installDriver := some "boom" }

/-- C3 counterexample: the driver-deletion defer is registered at main.go
lines 325-332 before the install error is examined at line 333, so when
`installDriver` fails with teardown-driver set, `deleteDriver` still
executes — the claim says no driver-deletion cleanup is registered in that
case. -/
theorem C3_counterexample :
    validConfig cfgC3 = true ∧
    opsC3.installDriver = some "boom" ∧
    handlePipeline cfgC3 opsC3 (allEmissions cfgC3 opsC3) =
      (some "failed to install CSI Driver: boom",
       [Effect.installDriver, Effect.deleteDriver]) ∧
    Effect.deleteDriver ∈ (handlePipeline cfgC3 opsC3 (allEmissions cfgC3 opsC3)).2 := by
  decide

/-- C3 amended: when the sequential phase is reached and `installDriver`
fails, the run returns the wrapped install failure, and the driver-deletion
cleanup is registered (and executes) exactly when the teardown-driver flag
is set — regardless of the install failure. -/
theorem C3_install_amended (c : Config) (ops : Ops) (arrival : List (Option String))
    (e : String) (hagg : aggregate arrival = none) (hins : ops.installDriver = some e) :
    (handlePipeline c ops arrival).1 = some ("failed to install CSI Driver: " ++ e) ∧
    (Effect.deleteDriver ∈ (handlePipeline c ops arrival).2 ↔ c.teardownDriver = true) := by
  unfold handlePipeline
  rw [hagg, hins]
  refine ⟨rfl, ?_⟩
  cases htd : c.teardownDriver <;> cases htc : c.teardownCluster <;>
    cases hdb : c.doDriverBuild <;> simp [teardownUnwind, htd, htc, hdb]

/-- Witness for `C3_install_amended` at the `cfgC3`/`opsC3` run. -/
theorem C3_install_amended_witness :
    (handlePipeline cfgC3 opsC3 (allEmissions cfgC3 opsC3)).1 =
      some ("failed to install CSI Driver: " ++ "boom") ∧
    (Effect.deleteDriver ∈ (handlePipeline cfgC3 opsC3 (allEmissions cfgC3 opsC3)).2 ↔
      cfgC3.teardownDriver = true) :=
  C3_install_amended cfgC3 opsC3 (allEmissions cfgC3 opsC3) "boom" (by decide) (by decide)

/- ### C7: behaviour on a failing aggregate, and teardown-error isolation -/

/-- C7: on a non-success aggregate `handle` returns the first received
failure, never invokes the driver-install or test phases, and still executes
every registered teardown action; and (last conjunct) the results of the
teardown operations themselves never influence the returned value of any
run — they are only logged. -/
theorem C7_aggregate_failure (c : Config) (ops : Ops) (arrival : List (Option String)) :
    (∀ e, aggregate arrival = some e →
      (handlePipeline c ops arrival).1 = some e ∧
      Effect.installDriver ∉ (handlePipeline c ops arrival).2 ∧
      Effect.runCSITests ∉ (handlePipeline c ops arrival).2 ∧
      Effect.runMigrationTests ∉ (handlePipeline c ops arrival).2 ∧
      (handlePipeline c ops arrival).2 = teardownUnwind c false) ∧
    (∀ x y z, handlePipeline c
        { ops with deleteImage := x, clusterDown := y, deleteDriver := z } arrival =
      handlePipeline c ops arrival) := by
  constructor
  · intro e he
    rw [handlePipeline_of_aggregate_some c ops arrival e he]
    obtain ⟨h1, h2, h3⟩ := not_mem_teardownUnwind_forward c false
    exact ⟨rfl, h1, h2, h3, rfl⟩
  · intro x y z
    rfl

/-- Witness for `C7_aggregate_failure` at the `cfgC2`/`opsC2` run, whose
aggregate is the push failure. -/
theorem C7_aggregate_failure_witness :
    (handlePipeline cfgC2 opsC2 arrC2).1 = some "push failed" ∧
    Effect.installDriver ∉ (handlePipeline cfgC2 opsC2 arrC2).2 :=
  ⟨((C7_aggregate_failure cfgC2 opsC2 arrC2).1 "push failed" (by decide)).1,
   ((C7_aggregate_failure cfgC2 opsC2 arrC2).1 "push failed" (by decide)).2.1⟩

/- ### Shared lemma: single-failure aggregation is arrival-order independent -/

lemma aggregate_single_failure (slots arrival : List (Option String)) (e : String)
    (hlen : slots.length = 4) (hfilter : slots.filter (fun o => o.isSome) = [some e])
    (hperm : arrival.Perm slots) : aggregate arrival = some e := by
  have hlen' : arrival.length = 4 := hperm.length_eq.trans hlen
  unfold aggregate
  rw [List.take_of_length_le (le_of_eq hlen')]
  apply firstErr_of_filter_singleton
  have hpf : List.Perm (arrival.filter (fun o => o.isSome))
      (slots.filter (fun o => o.isSome)) := hperm.filter _
  rw [hfilter] at hpf
  exact List.perm_singleton.mp hpf

/- ### C4: the gate is pre-seeded when no cluster build is needed -/

/-- C4: when `kube-version` is unset the skip branch (main.go lines 195-197)
runs synchronously in `handle` before the bring-up goroutine is launched:
nil is sent for the build slot and `true` is written to the (buffered) gate,
so the gate read of the bring-up slot finds the value already present and
the slot proceeds to its operation. -/
theorem C4_gate_preseeded (c : Config) (ops : Ops) (h : c.kubeVersion = "") :
    slot0Trace c ops = [Ev.outcome none, Ev.gateWrite true] ∧
    gateValue c ops = true ∧
    (c.bringupCluster = true → slot3 c ops (gateValue c ops) = slot3Run c ops) := by
  have ht : slot0Trace c ops = [Ev.outcome none, Ev.gateWrite true] := by
    simp [slot0Trace, h]
  have hg : gateValue c ops = true := by
    simp [gateValue, ht, traceGateWrites]
  exact ⟨ht, hg, fun hb => by simp [slot3, hb, hg]⟩

/-- Witness for `C4_gate_preseeded` at the `cfgC2` run. -/
theorem C4_gate_preseeded_witness :
    gateValue cfgC2 opsAllOk = true ∧
    slot3 cfgC2 opsAllOk (gateValue cfgC2 opsAllOk) = slot3Run cfgC2 opsAllOk :=
  ⟨(C4_gate_preseeded cfgC2 opsAllOk (by decide)).2.1,
   (C4_gate_preseeded cfgC2 opsAllOk (by decide)).2.2 (by decide)⟩

/- ### C5: bring-up behaviour when the cluster build fails -/

/-- C5: when the cluster-build slot reports a failure, the gate carries
`false`, the bring-up slot performs no side effect and sends a nil Outcome,
and — when the other two slots succeed — the aggregate is the build failure
for every arrival order. -/
theorem C5_build_failure (c : Config) (ops : Ops) (e : String)
    (hfail : slot0Emit c ops = some e) :
    gateValue c ops = false ∧
    slot3 c ops (gateValue c ops) = ([none], []) ∧
    (slot1Emit c ops = none → slot2Emit c ops = none →
      ∀ arrival, arrival.Perm (allEmissions c ops) → aggregate arrival = some e) := by
  have hgate : gateValue c ops = false := by
    by_cases hk : c.kubeVersion ≠ ""
    · cases hd : ops.downloadK8s with
      | some e1 => simp [gateValue, slot0Trace, hk, hd, traceGateWrites]
      | none =>
        cases hb : ops.buildK8s with
        | some e2 => simp [gateValue, slot0Trace, hk, hd, hb, traceGateWrites]
        | none => simp [slot0Emit, slot0Trace, hk, hd, hb, traceOutcomes] at hfail
    · simp [slot0Emit, slot0Trace, hk, traceOutcomes] at hfail
  have hslot3 : slot3 c ops (gateValue c ops) = ([none], []) := by
    rw [hgate]
    cases hbc : c.bringupCluster <;> simp [slot3, hbc]
  refine ⟨hgate, hslot3, ?_⟩
  intro h1 h2 arrival hperm
  have hall : allEmissions c ops = [some e, none, none, none] := by
    simp [allEmissions, hfail, h1, h2, hslot3]
  rw [hall] at hperm
  exact aggregate_single_failure [some e, none, none, none] arrival e (by simp)
    (by simp) hperm

/-- A run of `cfgC1` where only the Kubernetes download fails. -/
def opsC5 : Ops := { opsAllOk with downloadK8s := some "dl" }

/-- Witness for `C5_build_failure` at the `cfgC1`/`opsC5` run, with the
bring-up nil arriving first. -/
theorem C5_build_failure_witness :
    gateValue cfgC1 opsC5 = false ∧
    aggregate [none, some "failed to download Kubernetes source: dl", none, none] =
      some "failed to download Kubernetes source: dl" := by
  have h := C5_build_failure cfgC1 opsC5 "failed to download Kubernetes source: dl"
    (by decide)
  exact ⟨h.1, h.2.2 (by decide) (by decide) _ (by decide)⟩

/- ### C6: the unrecognized-strategy branch emits two Outcomes -/

/-- A validated configuration (the strategy flag only has to be nonempty to
pass `ensureVariable`) whose deployment strategy is neither "gce" nor
"gke", with cluster bring-up enabled. -/
def cfgC6 : Config :=
  { teardownCluster := false, teardownDriver := false, bringupCluster := true,
    kubeVersion := "", testVersion := "", kubeFeatureGates := "",
    localK8sDir := "", deploymentStrat := "foo", gkeClusterVer := "",
    storageClassFile := "sc.yaml", migrationTest := false, doDriverBuild := false }

/-- C6: with an unrecognized deployment strategy the `default` branch of the
bring-up switch (main.go line 282) sends its error and then, lacking a
`return`, falls through to the `errChan <- nil` at line 284 — the bring-up
slot emits two Outcomes and the run emits five in total, not four. -/
theorem C6_five_outcomes :
    validConfig cfgC6 = true ∧
    (slot3 cfgC6 opsAllOk (gateValue cfgC6 opsAllOk)).1 =
      [some "deployment-strategy must be set to 'gce' or 'gke', but is: foo", none] ∧
    (allEmissions cfgC6 opsAllOk).length = 5 ∧
    (allEmissions cfgC6 opsAllOk).length ≠ 4 := by
  decide

/- ### C8: position of the gate write relative to the Outcome send -/

/-- Index of the first gate write in a slot event trace. -/
def gateWriteIdx (t : List Ev) : Option Nat :=
  t.findIdx? fun e => match e with | .gateWrite _ => true | .outcome _ => false

/-- Index of the first Outcome send in a slot event trace. -/
def outcomeIdx (t : List Ev) : Option Nat :=
  t.findIdx? fun e => match e with | .outcome _ => true | .gateWrite _ => false

/-- A validated configuration whose cluster-build slot runs. -/
def cfgC8 : Config := cfgC1

/-- A run of `cfgC8` where the Kubernetes download fails. -/
def opsC8 : Ops := { opsAllOk with downloadK8s := some "dl" }

/-- C8 counterexample: on the download-failure path (main.go lines 180-184)
the goroutine sends its Outcome on `errChan` first and writes the gate
second, so the gate write does not occur before the slot reports its
Outcome. -/
theorem C8_counterexample :
    slot0Trace cfgC8 opsC8 =
      [Ev.outcome (some "failed to download Kubernetes source: dl"),
       Ev.gateWrite false] ∧
    outcomeIdx (slot0Trace cfgC8 opsC8) = some 0 ∧
    gateWriteIdx (slot0Trace cfgC8 opsC8) = some 1 := by
  decide

/-- C8 amended: on every path of the cluster-build slot the gate is written
exactly once and exactly one Outcome is sent, and the written value is
exactly what the downstream read yields; on the successful-build path the
write precedes the Outcome send, while on the failure paths and the skipped
path it immediately follows it. -/
theorem C8_gate_write_amended (c : Config) (ops : Ops) :
    (traceGateWrites (slot0Trace c ops)).length = 1 ∧
    (traceOutcomes (slot0Trace c ops)).length = 1 ∧
    traceGateWrites (slot0Trace c ops) = [gateValue c ops] ∧
    (c.kubeVersion ≠ "" → ops.downloadK8s = none → ops.buildK8s = none →
      slot0Trace c ops = [Ev.gateWrite true, Ev.outcome none]) ∧
    ((slot0Emit c ops).isSome → slot0Trace c ops =
      [Ev.outcome (slot0Emit c ops), Ev.gateWrite false]) := by
  by_cases hk : c.kubeVersion ≠ ""
  · cases hd : ops.downloadK8s with
    | some e1 =>
      simp [slot0Trace, slot0Emit, gateValue, traceGateWrites, traceOutcomes, hk, hd]
    | none =>
      cases hb : ops.buildK8s with
      | some e2 =>
        simp [slot0Trace, slot0Emit, gateValue, traceGateWrites, traceOutcomes,
          hk, hd, hb]
      | none =>
        simp [slot0Trace, slot0Emit, gateValue, traceGateWrites, traceOutcomes,
          hk, hd, hb]
  · simp [slot0Trace, slot0Emit, gateValue, traceGateWrites, traceOutcomes, hk]

/-- Witness for `C8_gate_write_amended` at the all-success `cfgC1` run. -/
theorem C8_gate_write_amended_witness :
    slot0Trace cfgC1 opsAllOk = [Ev.gateWrite true, Ev.outcome none] :=
  (C8_gate_write_amended cfgC1 opsAllOk).2.2.2.1 (by decide) rfl rfl

/- ### C9: VerifyDevicePath -/

/-- Whether the existence check of a path failed (the stat returned an error
other than not-exists). -/
def StatRes.isStatError : StatRes → Bool
  | .statError _ => true
  | .found => false
  | .missing => false

/-- Whether the oracle says a path exists. -/
def statFound (stat : String → StatRes) (p : String) : Bool :=
  match stat p with
  | .found => true
  | .missing => false
  | .statError _ => false

lemma verifyLoop_no_error (stat : String → StatRes) (paths : List String)
    (h : ∀ p ∈ paths, (stat p).isStatError = false) :
    verifyDevicePathLoop stat paths = .ok ((paths.find? (statFound stat)).getD "") := by
  induction paths with
  | nil => rfl
  | cons p rest ih =>
    have hp : (stat p).isStatError = false := h p (List.mem_cons_self _ _)
    cases hst : stat p with
    | found =>
      rw [List.find?_cons_of_pos _ (by simp [statFound, hst])]
      simp [verifyDevicePathLoop, pathExists, hst]
    | missing =>
      rw [List.find?_cons_of_neg _ (by simp [statFound, hst])]
      rw [show verifyDevicePathLoop stat (p :: rest) = verifyDevicePathLoop stat rest from
        by simp [verifyDevicePathLoop, pathExists, hst]]
      exact ih fun q hq => h q (List.mem_cons_of_mem _ hq)
    | statError e =>
      rw [hst] at hp
      simp [StatRes.isStatError] at hp

lemma verifyLoop_error (stat : String → StatRes) (paths : List String) (msg : String)
    (h : verifyDevicePathLoop stat paths = .error msg) :
    ∃ p ∈ paths, (stat p).isStatError = true := by
  induction paths with
  | nil => simp [verifyDevicePathLoop] at h
  | cons p rest ih =>
    cases hst : stat p with
    | found => simp [verifyDevicePathLoop, pathExists, hst] at h
    | missing =>
      rw [show verifyDevicePathLoop stat (p :: rest) = verifyDevicePathLoop stat rest from
        by simp [verifyDevicePathLoop, pathExists, hst]] at h
      obtain ⟨q, hq, he⟩ := ih h
      exact ⟨q, List.mem_cons_of_mem _ hq, he⟩
    | statError e =>
      exact ⟨p, List.mem_cons_self _ _, by simp [hst, StatRes.isStatError]⟩

/-- C9: when no existence check itself fails, `VerifyDevicePath` returns
(with no error) the first path in list order that exists, or the empty
string when none exists; and whenever it returns an error, the existence
check of some path in the list failed. -/
theorem C9_verify_device_path (env : UdevEnv) (stat : String → StatRes)
    (paths : List String) :
    ((∀ p ∈ paths, (stat p).isStatError = false) →
      VerifyDevicePath env stat paths = .ok ((paths.find? (statFound stat)).getD "")) ∧
    (∀ msg, VerifyDevicePath env stat paths = .error msg →
      ∃ p ∈ paths, (stat p).isStatError = true) :=
  ⟨fun h => verifyLoop_no_error stat paths h,
   fun msg h => verifyLoop_error stat paths msg h⟩

/-- A concrete filesystem oracle: only `"/dev/disk/by-id/google-sda"`
exists. -/
def statC9 : String → StatRes := fun p =>
  if p = "/dev/disk/by-id/google-sda" then .found else .missing

/-- Witness for `C9_verify_device_path`: scanning a missing path and then an
existing one returns the existing one. -/
theorem C9_verify_device_path_witness :
    VerifyDevicePath ⟨none, none⟩ statC9
      ["/dev/disk/by-id/scsi-0Google_PersistentDisk_sda", "/dev/disk/by-id/google-sda"] =
      .ok "/dev/disk/by-id/google-sda" := by
  rw [(C9_verify_device_path ⟨none, none⟩ statC9
    ["/dev/disk/by-id/scsi-0Google_PersistentDisk_sda", "/dev/disk/by-id/google-sda"]).1
    (by decide)]
  rfl

/- ### C10: GetDiskByIdPaths -/

lemma splitSlash_ne_nil (cs : List Char) : splitSlash cs ≠ [] := by
  induction cs with
  | nil => simp [splitSlash]
  | cons c rest ih =>
    by_cases hc : c = '/'
    · simp [splitSlash, hc]
    · cases hs : splitSlash rest with
      | nil => exact absurd hs ih
      | cons h t => simp [splitSlash, hc, hs, consHead]

lemma splitSlash_no_slash (d : List Char) (h : '/' ∉ d) : splitSlash d = [d] := by
  induction d with
  | nil => rfl
  | cons c rest ih =>
    have hc : ¬ c = '/' := by
      intro he
      exact h (by rw [he]; exact List.mem_cons_self _ _)
    have hr : splitSlash rest = [rest] := ih fun hm => h (List.mem_cons_of_mem c hm)
    simp [splitSlash, hc, hr, consHead]

/-- Last element of a split, with the empty chunk as default.  Proof-free
variant of `List.getLast` used to state the seam lemma. -/
def lastComp : List (List Char) → List Char
  | [] => []
  | [x] => x
  | _ :: t => lastComp t

lemma splitSlash_append_no_slash (xs d : List Char) (h : '/' ∉ d) :
    splitSlash (xs ++ d) =
      (splitSlash xs).dropLast ++ [lastComp (splitSlash xs) ++ d] := by
  induction xs with
  | nil =>
    simp [splitSlash, splitSlash_no_slash d h, lastComp]
  | cons c xs' ih =>
    by_cases hc : c = '/'
    · subst hc
      rw [List.cons_append]
      rw [show splitSlash ('/' :: (xs' ++ d)) = [] :: splitSlash (xs' ++ d) from
        by simp [splitSlash]]
      rw [show splitSlash ('/' :: xs') = [] :: splitSlash xs' from by simp [splitSlash]]
      rw [ih]
      cases hS : splitSlash xs' with
      | nil => exact absurd hS (splitSlash_ne_nil xs')
      | cons s0 S' => simp [List.dropLast, lastComp]
    · rw [List.cons_append]
      rw [show splitSlash (c :: (xs' ++ d)) = consHead c (splitSlash (xs' ++ d)) from
        by simp [splitSlash, hc]]
      rw [show splitSlash (c :: xs') = consHead c (splitSlash xs') from
        by simp [splitSlash, hc]]
      rw [ih]
      cases hS : splitSlash xs' with
      | nil => exact absurd hS (splitSlash_ne_nil xs')
      | cons s0 S' =>
        cases S' with
        | nil => simp [consHead, List.dropLast, lastComp]
        | cons s1 S'' => simp [consHead, List.dropLast, lastComp]

lemma join_google (d : String) (h : '/' ∉ d.data) :
    goJoin2 diskByIdPath (diskGooglePre ++ d) = "/dev/disk/by-id/google-" ++ d := by
  unfold goJoin2 goCleanRooted diskByIdPath diskGooglePre
  rw [show ("/dev/disk/by-id/" ++ "/" ++ ("google-" ++ d)).data
      = "/dev/disk/by-id//google-".data ++ d.data from rfl]
  rw [splitSlash_append_no_slash _ _ h]
  rfl

lemma join_scsi (d : String) (h : '/' ∉ d.data) :
    goJoin2 diskByIdPath (diskScsiGooglePre ++ d) =
      "/dev/disk/by-id/scsi-0Google_PersistentDisk_" ++ d := by
  unfold goJoin2 goCleanRooted diskByIdPath diskScsiGooglePre
  rw [show ("/dev/disk/by-id/" ++ "/" ++ ("scsi-0Google_PersistentDisk_" ++ d)).data
      = "/dev/disk/by-id//scsi-0Google_PersistentDisk_".data ++ d.data from rfl]
  rw [splitSlash_append_no_slash _ _ h]
  rfl

/-- C10 counterexample: for `deviceName = "/"` the `path.Join` inside
`GetDiskByIdPaths` cleans away the trailing slash, so the returned paths are
not the plain concatenations the claim states. -/
theorem C10_counterexample :
    GetDiskByIdPaths "/" "" =
      ["/dev/disk/by-id/google-", "/dev/disk/by-id/scsi-0Google_PersistentDisk_"] ∧
    GetDiskByIdPaths "/" "" ≠
      ["/dev/disk/by-id/google-" ++ "/",
       "/dev/disk/by-id/scsi-0Google_PersistentDisk_" ++ "/"] := by
  decide

/-- C10 amended: `GetDiskByIdPaths` always returns exactly two paths (never
an empty list); for device names free of `'/'` (so that `path.Join`'s
cleaning is the identity) they are exactly the two stated concatenations,
and a nonempty partition appends `"-part" ++ partition` to each. -/
theorem C10_paths_amended (deviceName part : String) (h : '/' ∉ deviceName.data) :
    (GetDiskByIdPaths deviceName part).length = 2 ∧
    GetDiskByIdPaths deviceName "" =
      ["/dev/disk/by-id/google-" ++ deviceName,
       "/dev/disk/by-id/scsi-0Google_PersistentDisk_" ++ deviceName] ∧
    (part ≠ "" → GetDiskByIdPaths deviceName part =
      ["/dev/disk/by-id/google-" ++ deviceName ++ "-part" ++ part,
       "/dev/disk/by-id/scsi-0Google_PersistentDisk_" ++ deviceName ++ "-part" ++ part]) := by
  have hg := join_google deviceName h
  have hs := join_scsi deviceName h
  refine ⟨?_, ?_, ?_⟩
  · unfold GetDiskByIdPaths
    by_cases hp : part ≠ "" <;> simp [hp]
  · simp [GetDiskByIdPaths, hg, hs]
  · intro hp
    simp [GetDiskByIdPaths, hp, hg, hs, diskPartitionSuffix]

/-- Witness for `C10_paths_amended` at `deviceName = "sda"`,
`partition = "1"`. -/
theorem C10_paths_amended_witness :
    GetDiskByIdPaths "sda" "1" =
      ["/dev/disk/by-id/google-" ++ "sda" ++ "-part" ++ "1",
       "/dev/disk/by-id/scsi-0Google_PersistentDisk_" ++ "sda" ++ "-part" ++ "1"] :=
  (C10_paths_amended "sda" "1" (by decide)).2.2 (by decide)
